import Mathlib

/-!
Verification of the kupon client library (SundaeSwap-finance/kupon).

The development shallowly embeds the library's pure logic:
  * `AssetId` with its textual codec (`src/types.rs`),
  * the filter builder `MatchOptions` and its URL compiler `to_url`
    (`src/client.rs`),
  * the response-classification logic of `Client.health`, `Client.datum`
    and the retry loop of `Client.matches` (`src/client.rs`), with the
    HTTP exchange modelled as an explicit script of server replies.

Machine integers (`u64`, `usize`, `u16`) are modelled as `Nat`: none of the
embedded code performs arithmetic that can overflow (the only arithmetic is
a saturating-free `retries -= 1` guarded by `retries == 0`).
-/

namespace Kupon

/-- Splits a list of characters at the first occurrence of `c`, returning
the parts before and after it, or `none` when `c` does not occur.
Character-level model of Rust's `str::split_once`. -/
def splitOnceCh (c : Char) : List Char → Option (List Char × List Char)
  | [] => none
  | x :: xs =>
    if x = c then some ([], xs)
    else
      match splitOnceCh c xs with
      | some (a, b) => some (x :: a, b)
      | none => none

/-- String-level model of Rust's `str::split_once(c)`. -/
def splitOnce (s : String) (c : Char) : Option (String × String) :=
  match splitOnceCh c s.data with
  | some (a, b) => some (⟨a⟩, ⟨b⟩)
  | none => none

/-- `AssetId` from `src/types.rs`: a policy id and an optional asset name. -/
structure AssetId where
  policy_id : String
  asset_name : Option String
deriving DecidableEq, Repr

/-- `AssetId::from_hex` (`src/types.rs:39-48`): split at the first dot;
the part before becomes the policy id and the part after the asset name,
or the whole string is the policy id when no dot occurs. -/
def AssetId.from_hex (hex : String) : AssetId :=
  match splitOnce hex '.' with
  | some (policy_id, asset_name) => { policy_id, asset_name := some asset_name }
  | none => { policy_id := hex, asset_name := none }

/-- `AssetId::to_hex` (`src/types.rs:50-55`): `policy_id.name` when a name
is present, else the bare policy id. -/
def AssetId.to_hex (a : AssetId) : String :=
  match a.asset_name with
  | some name => a.policy_id ++ "." ++ name
  | none => a.policy_id

/-- A query-string item, as appended by `url::UrlQuery`: `append_pair` makes a
`key=value` pair, `append_key_only` a bare valueless key. -/
inductive QueryItem where
  | pair (key value : String)
  | keyOnly (key : String)
deriving DecidableEq, Repr

/-- A URL, reduced to the parts this library manipulates: an opaque base
(scheme plus authority), a path, and a list of query items. `set_path`
replaces the path; `query_pairs_mut` appends to the existing query. -/
structure Url where
  base : String
  path : String
  query : List QueryItem
deriving DecidableEq, Repr

/-- `KuponError` from `src/errors.rs`. The payloads of `InvalidUrl`
(a `url::ParseError`) and `RequestFailed` (a `reqwest::Error`) are foreign
types whose content the library never inspects, so they are not modelled. -/
inductive KuponError where
  | invalidQuery (msg : String)
  | invalidUrl
  | kupoError (hint : String)
  | requestFailed
deriving DecidableEq, Repr

/-- The thiserror-derived display of `KuponError` (`src/errors.rs`); the
display strings of `InvalidUrl` and `RequestFailed` ignore their payloads. -/
def KuponError.toMessage : KuponError → String
  | .invalidQuery msg => "invalid query: " ++ msg
  | .invalidUrl => "invalid url"
  | .kupoError hint => "error from kupo: " ++ hint
  | .requestFailed => "request failed"

/-- `SpentStatus` from `src/client.rs`. -/
inductive SpentStatus where
  | unspent
  | spent
deriving DecidableEq, Repr

/-- `AssetIdOptions` from `src/client.rs`. -/
structure AssetIdOptions where
  policy_id : String
  asset_name : Option String
deriving DecidableEq, Repr

/-- `AssetIdOptions::to_pattern` (`src/client.rs:134-139`): note the `.*`
wildcard suffix when no asset name is given, unlike `AssetId::to_hex`. -/
def AssetIdOptions.to_pattern (a : AssetIdOptions) : String :=
  match a.asset_name with
  | some name => a.policy_id ++ "." ++ name
  | none => a.policy_id ++ ".*"

/-- `TransactionIdOptions` from `src/client.rs`; `output_index` is a `u64`,
modelled as `Nat` (it is only ever formatted, never computed with). -/
structure TransactionIdOptions where
  transaction_id : String
  output_index : Option Nat
deriving DecidableEq, Repr

/-- `TransactionIdOptions::to_pattern` (`src/client.rs:149-154`). -/
def TransactionIdOptions.to_pattern (t : TransactionIdOptions) : String :=
  match t.output_index with
  | some index => toString index ++ "@" ++ t.transaction_id
  | none => "*@" ++ t.transaction_id

/-- `MatchOptions` from `src/client.rs`; defaults mirror `#[derive(Default)]`. -/
structure MatchOptions where
  spent_status : Option SpentStatus := none
  address : Option String := none
  credential : Option String := none
  asset : Option AssetIdOptions := none
  transaction : Option TransactionIdOptions := none
deriving DecidableEq, Repr

/-- `MatchOptions::only_spent`. -/
def MatchOptions.only_spent (o : MatchOptions) : MatchOptions :=
  { o with spent_status := some .spent }

/-- `MatchOptions::only_unspent`. -/
def MatchOptions.only_unspent (o : MatchOptions) : MatchOptions :=
  { o with spent_status := some .unspent }

/-- `MatchOptions::asset_id` (`src/client.rs:205-217`): split the textual
asset id at the first dot, like `AssetId::from_hex`. -/
def MatchOptions.asset_id (o : MatchOptions) (assetId : String) : MatchOptions :=
  let (policy_id, asset_name) :=
    match splitOnce assetId '.' with
    | some (policy_id, asset_name) => (policy_id, some asset_name)
    | none => (assetId, none)
  { o with asset := some { policy_id, asset_name } }

/-- `MatchOptions::to_url` (`src/client.rs:239-293`). The pattern slot is
filled from address or credential; failing those, the *transaction* filter is
examined before the asset filter; a dimension not chosen as the pattern is
appended to the query as key/value pairs, followed by the spent-status flag. -/
def MatchOptions.to_url (o : MatchOptions) (endpoint : Url) : Except KuponError Url :=
  if o.address.isSome && o.credential.isSome then
    .error (.invalidQuery "cannot query by both address and credential at once")
  else
    let query := endpoint.query
    let pattern := o.address.or o.credential
    let (pattern, query) :=
      match o.transaction with
      | some transaction =>
        if pattern.isNone then (some transaction.to_pattern, query)
        else
          (pattern,
            query ++ [QueryItem.pair "transaction_id" transaction.transaction_id] ++
              match transaction.output_index with
              | some index => [QueryItem.pair "output_index" (toString index)]
              | none => [])
      | none => (pattern, query)
    let (pattern, query) :=
      match o.asset with
      | some asset =>
        if pattern.isNone then (some asset.to_pattern, query)
        else
          (pattern,
            query ++ [QueryItem.pair "policy_id" asset.policy_id] ++
              match asset.asset_name with
              | some asset_name => [QueryItem.pair "asset_name" asset_name]
              | none => [])
      | none => (pattern, query)
    let query :=
      match o.spent_status with
      | some .spent => query ++ [QueryItem.keyOnly "spent"]
      | some .unspent => query ++ [QueryItem.keyOnly "unspent"]
      | none => query
    let path :=
      match pattern with
      | some pattern => "matches/" ++ pattern
      | none => "matches"
    .ok { base := endpoint.base, path := path, query := query }

/-- `BlockReference` from `src/types.rs`. -/
structure BlockReference where
  slot_no : Nat
  header_hash : String
deriving DecidableEq, Repr

/-- `DatumHash` from `src/types.rs`. -/
structure DatumHash where
  typ : String
  hash : String
deriving DecidableEq, Repr

/-- `MatchValue` from `src/types.rs`; the `BTreeMap<AssetId, u64>` is
modelled as its ordered list of entries. -/
structure MatchValue where
  coins : Nat
  assets : List (AssetId × Nat)
deriving DecidableEq, Repr

/-- `Match` from `src/types.rs`. -/
structure Match where
  transaction_index : Nat
  transaction_id : String
  output_index : Nat
  address : String
  value : MatchValue
  datum : Option DatumHash
  script_hash : Option String
  created_at : Option BlockReference
  spent_at : Option BlockReference
deriving DecidableEq, Repr

/-- serde's untagged `MatchResponse` (`src/client.rs:303-308`). -/
inductive MatchResponse where
  | success (results : List Match)
  | failure (hint : String)
deriving DecidableEq, Repr

/-- One round of the HTTP exchange in `Client::matches`, as the code observes
it after `execute` and `json`: the transport failed, or the body failed to
deserialize, or a parsed `MatchResponse` arrived with an HTTP status code. -/
inductive MatchesReply where
  | noResponse
  | badBody (status : Nat)
  | reply (status : Nat) (response : MatchResponse)
deriving DecidableEq, Repr

/-- The `Client` state relevant to the modelled logic (`src/client.rs:42-46`);
the `reqwest::Client` handle carries no logic and is not modelled. -/
structure Client where
  endpoint : Url
  retries : Nat
deriving DecidableEq, Repr

/-- The retry loop of `Client::matches` (`src/client.rs:86-106`), driven by a
script of server replies; alongside the result it counts the back-off sleeps
performed. The URL is recompiled from the options on every attempt, as in the
source; an exhausted script is an unresponsive server, i.e. a transport
failure. The jittered delay value is not modelled, only the fact of sleeping. -/
def Client.matchesGo (endpoint : Url) (options : MatchOptions) :
    Nat → Nat → List MatchesReply → Except KuponError (List Match) × Nat
  | _, sleeps, [] =>
    match options.to_url endpoint with
    | .error e => (.error e, sleeps)
    | .ok _ => (.error .requestFailed, sleeps)
  | retries, sleeps, head :: rest =>
    match options.to_url endpoint with
    | .error e => (.error e, sleeps)
    | .ok _ =>
      match head with
      | .noResponse => (.error .requestFailed, sleeps)
      | .badBody _ => (.error .requestFailed, sleeps)
      | .reply status response =>
        match response with
        | .success results => (.ok results, sleeps)
        | .failure hint =>
          if retries = 0 ∨ status ≠ 503 then (.error (.kupoError hint), sleeps)
          else Client.matchesGo endpoint options (retries - 1) (sleeps + 1) rest

/-- `Client::matches` (`src/client.rs:86`): run the retry loop with the
configured retry budget and no sleeps performed yet. -/
def Client.matches (c : Client) (options : MatchOptions)
    (script : List MatchesReply) : Except KuponError (List Match) × Nat :=
  Client.matchesGo c.endpoint options c.retries 0 script

/-- Modelled from the spec: `ServerInfo` is declared in the crate root, which
is not among the provided sources; the spec describes it only as a "server
info blob" of unspecified fields, so it is modelled as an opaque record of
string fields. -/
structure ServerInfo where
  fields : List (String × String)
deriving DecidableEq, Repr

/-- Modelled from the spec: `HealthStatus` is declared in the crate root,
which is not among the provided sources; the spec gives the enum
{Healthy, Syncing, Disconnected, Error(message)}. -/
inductive HealthStatus where
  | healthy
  | syncing
  | disconnected
  | error (message : String)
deriving DecidableEq, Repr

/-- Modelled from the spec: `Health` is declared in the crate root, which is
not among the provided sources; the spec gives a status plus optional server
info, never cached. -/
structure Health where
  status : HealthStatus
  info : Option ServerInfo
deriving DecidableEq, Repr

/-- The body of a health response as classified by serde's untagged
`HealthResponse` (`src/client.rs:296-301`): a `ServerInfo` success, a
`{hint}` failure, or a body that deserializes as neither. -/
inductive HealthBody where
  | success (info : ServerInfo)
  | failure (hint : String)
  | malformed
deriving DecidableEq, Repr

/-- The outcome of the HTTP exchange in `Client::try_health`: transport
failure while building or executing the request, or a response carrying a
status code and a body. -/
inductive HealthFetch where
  | noResponse
  | response (status : Nat) (body : HealthBody)
deriving DecidableEq, Repr

/-- The status-code mapping of `Client::try_health` (`src/client.rs:69-74`). -/
def HealthStatus.fromCode (code : Nat) : HealthStatus :=
  if code = 200 then .healthy
  else if code = 202 then .syncing
  else if code = 503 then .disconnected
  else .error ("Unexpected response code " ++ toString code)

/-- `Client::try_health` (`src/client.rs:59-84`): derive a status from the
code, then let a failure body override it; a malformed body leaves the
status-derived value with no info. -/
def Client.try_health : HealthFetch → Except KuponError Health
  | .noResponse => .error .requestFailed
  | .response code body =>
    let status := HealthStatus.fromCode code
    match body with
    | .success info => .ok { status := status, info := some info }
    | .failure hint => .ok { status := .error hint, info := none }
    | .malformed => .ok { status := status, info := none }

/-- `Client::health` (`src/client.rs:49-57`): fold any error of `try_health`
into an `Error`-status `Health` value carrying the error's display string. -/
def Client.health (fetch : HealthFetch) : Health :=
  match Client.try_health fetch with
  | .ok health => health
  | .error e => { status := .error e.toMessage, info := none }

/-- A JSON value, as needed to model serde's handling of the datum
response body. -/
inductive Json where
  | null
  | bool (b : Bool)
  | num (n : Int)
  | str (s : String)
  | arr (elems : List Json)
  | obj (fields : List (String × Json))

/-- Looks up the first occurrence of a key in a JSON object's field list. -/
def jsonField (fields : List (String × Json)) (key : String) : Option Json :=
  match fields with
  | [] => none
  | (k, v) :: rest => if k = key then some v else jsonField rest key

/-- serde's untagged `DatumResponse` (`src/client.rs:310-315`). -/
inductive DatumResponse where
  | success (datum : String)
  | failure (hint : String)
deriving DecidableEq, Repr

/-- Deserialization of the untagged `DatumResponse`: try the
`Success {datum}` shape first, then the `Failure {hint}` shape; struct
deserialization ignores unknown fields. -/
def parseDatumResponse : Json → Option DatumResponse
  | .obj fields =>
    (match jsonField fields "datum" with
     | some (.str datum) => some (.success datum)
     | _ =>
       match jsonField fields "hint" with
       | some (.str hint) => some (.failure hint)
       | _ => none)
  | _ => none

/-- Deserialization of `Option<DatumResponse>`, as `response.json()` performs
it in `Client::datum`: an absent body is a JSON parse error (serde_json hits
end of input), `null` is `None`, anything else must parse as a
`DatumResponse`; the outer `none` is the parse failure. -/
def parseOptionDatumResponse : Option Json → Option (Option DatumResponse)
  | none => none
  | some .null => some none
  | some j => (parseDatumResponse j).map some

/-- The outcome of the HTTP exchange in `Client::datum`: transport failure,
or a response with a body (`none` when the body is absent). The status code
is ignored by the method, as in the source. -/
inductive DatumFetch where
  | noResponse
  | response (body : Option Json)

/-- `Client::datum` (`src/client.rs:108-118`): a failed deserialization
surfaces as `RequestFailed` through the `?` on `json()`; a `null` body gives
`Ok(None)`; a success body gives the datum; a failure body gives the
server-reported error. -/
def Client.datum : DatumFetch → Except KuponError (Option String)
  | .noResponse => .error .requestFailed
  | .response body =>
    match parseOptionDatumResponse body with
    | none => .error .requestFailed
    | some none => .ok none
    | some (some (.success datum)) => .ok (some datum)
    | some (some (.failure hint)) => .error (.kupoError hint)

/-- The endpoint used by concrete instances below: the library's default
`http://localhost:1442` with empty path and query. -/
def exEndpoint : Url := { base := "http://localhost:1442", path := "", query := [] }

/-- A `MatchOptions` with every dimension unset (`MatchOptions::default`). -/
def emptyOptions : MatchOptions :=
  { spent_status := none, address := none, credential := none,
    asset := none, transaction := none }

/-- The filter of the C1 instance: an asset filter and a transaction filter,
with neither address nor credential. -/
def c1Options : MatchOptions :=
  { spent_status := none, address := none, credential := none,
    asset := some { policy_id := "abcd", asset_name := some "ef01" },
    transaction := some { transaction_id := "tt", output_index := none } }

-- Basic facts about `splitOnceCh`, shared by the codec theorems below.

theorem splitOnceCh_eq_some {c : Char} :
    ∀ {l a b : List Char}, splitOnceCh c l = some (a, b) → l = a ++ c :: b ∧ c ∉ a := by
  intro l
  induction l with
  | nil => intro a b h; simp [splitOnceCh] at h
  | cons x xs ih =>
    intro a b h
    by_cases hx : x = c
    · simp [splitOnceCh, hx] at h
      obtain ⟨rfl, rfl⟩ := h
      simp [hx]
    · simp only [splitOnceCh, if_neg hx] at h
      cases hs : splitOnceCh c xs with
      | none => simp [hs] at h
      | some p =>
        obtain ⟨a0, b0⟩ := p
        simp [hs] at h
        obtain ⟨ha, hb⟩ := h
        obtain ⟨hl, hc⟩ := ih hs
        subst ha hb
        constructor
        · simp [hl]
        · simp only [List.mem_cons, not_or]
          exact ⟨fun he => hx he.symm, hc⟩

theorem splitOnceCh_eq_none {c : Char} :
    ∀ {l : List Char}, splitOnceCh c l = none → c ∉ l := by
  intro l
  induction l with
  | nil => intro _; simp
  | cons x xs ih =>
    intro h
    by_cases hx : x = c
    · simp [splitOnceCh, hx] at h
    · simp only [splitOnceCh, if_neg hx] at h
      cases hs : splitOnceCh c xs with
      | none =>
        simp only [List.mem_cons, not_or]
        exact ⟨fun he => hx he.symm, ih hs⟩
      | some p => obtain ⟨a, b⟩ := p; simp [hs] at h

theorem splitOnceCh_of_not_mem {c : Char} {l : List Char} (h : c ∉ l) :
    splitOnceCh c l = none := by
  induction l with
  | nil => rfl
  | cons x xs ih =>
    simp only [List.mem_cons, not_or] at h
    have hx : ¬x = c := fun he => h.1 he.symm
    simp [splitOnceCh, hx, ih h.2]

theorem splitOnceCh_append {c : Char} :
    ∀ {a : List Char}, c ∉ a → ∀ b, splitOnceCh c (a ++ c :: b) = some (a, b) := by
  intro a
  induction a with
  | nil => intro _ b; simp [splitOnceCh]
  | cons x xs ih =>
    intro h b
    simp only [List.mem_cons, not_or] at h
    have hx : ¬x = c := fun he => h.1 he.symm
    simp [splitOnceCh, hx, ih h.2 b]

/-- C10: the decode-then-encode direction of the `AssetId` codec is the
identity on every string, and decoding always produces a policy id free of
dots (the split happens at the first dot); the decoded asset name, by
contrast, can itself contain dots, as `from_hex "ab.cd.ef"` shows. -/
theorem assetId_to_hex_from_hex :
    (∀ s : String, (AssetId.from_hex s).to_hex = s ∧ '.' ∉ (AssetId.from_hex s).policy_id.data)
      ∧ AssetId.from_hex "ab.cd.ef" = { policy_id := "ab", asset_name := some "cd.ef" } := by
  constructor
  · intro s
    unfold AssetId.from_hex splitOnce
    cases hs : splitOnceCh '.' s.data with
    | none =>
      refine ⟨rfl, ?_⟩
      exact splitOnceCh_eq_none hs
    | some p =>
      obtain ⟨a, b⟩ := p
      obtain ⟨hl, hc⟩ := splitOnceCh_eq_some hs
      refine ⟨?_, hc⟩
      apply String.ext
      simp [AssetId.to_hex, String.data_append, hl]
  · decide

/-- C5 counterexample: the round trip `from_hex (to_hex id) = id` fails for
the `AssetId` whose policy id is the string `a.b` with no asset name. -/
theorem assetId_roundtrip_counterexample :
    AssetId.from_hex (AssetId.to_hex { policy_id := "a.b", asset_name := none })
      ≠ { policy_id := "a.b", asset_name := none } := by
  decide

/-- C5 (amended): the round trip `from_hex (to_hex id) = id` holds for every
`AssetId` whose policy id contains no dot — in particular for every policy id
that is a hex string, the intended domain. The asset name may contain dots. -/
theorem assetId_roundtrip (a : AssetId) (h : '.' ∉ a.policy_id.data) :
    AssetId.from_hex a.to_hex = a := by
  obtain ⟨p, name⟩ := a
  cases name with
  | none =>
    simp only [AssetId.to_hex, AssetId.from_hex, splitOnce, splitOnceCh_of_not_mem h]
  | some n =>
    simp only [AssetId.to_hex] at *
    have hd : (p ++ "." ++ n).data = p.data ++ '.' :: n.data := by
      simp [String.data_append]
    simp only [AssetId.from_hex, splitOnce, hd, splitOnceCh_append h n.data]

/-- C5 witness: the round trip on a concrete dot-free policy id. -/
theorem assetId_roundtrip_witness :
    AssetId.from_hex (AssetId.to_hex { policy_id := "abcd", asset_name := some "ef01" })
      = { policy_id := "abcd", asset_name := some "ef01" } :=
  assetId_roundtrip { policy_id := "abcd", asset_name := some "ef01" } (by decide)

/-- C1 counterexample: with an asset filter and a transaction filter set and
neither address nor credential, `to_url` puts the *transaction* pattern in the
path and serializes the *asset* as query pairs — not, as claimed, the asset
pattern in the path with the transaction as query pairs. -/
theorem to_url_priority_counterexample :
    c1Options.address = none ∧ c1Options.credential = none
      ∧ c1Options.asset = some { policy_id := "abcd", asset_name := some "ef01" }
      ∧ c1Options.transaction = some { transaction_id := "tt", output_index := none }
      ∧ c1Options.to_url exEndpoint
          = .ok { base := "http://localhost:1442", path := "matches/*@tt",
                  query := [QueryItem.pair "policy_id" "abcd",
                            QueryItem.pair "asset_name" "ef01"] }
      ∧ ("matches/*@tt" : String)
          ≠ "matches/" ++ AssetIdOptions.to_pattern { policy_id := "abcd", asset_name := some "ef01" } :=
  ⟨rfl, rfl, rfl, rfl, rfl, by decide⟩

/-- C1 (amended): when neither address nor credential is set but both an
asset filter and a transaction filter are, `to_url` chooses the
*transaction's* pattern as the path segment and serializes the *asset* as
query pairs; the pattern slot is filled in the priority order address,
credential, transaction, asset, and with no dimension set the path is bare
`matches`. -/
theorem to_url_pattern_priority (e : Url) (o : MatchOptions) :
    (∀ a t, o.address = none → o.credential = none → o.asset = some a →
        o.transaction = some t →
        o.to_url e = .ok
          { base := e.base
            path := "matches/" ++ t.to_pattern
            query := e.query ++ [QueryItem.pair "policy_id" a.policy_id] ++
                (match a.asset_name with
                 | some name => [QueryItem.pair "asset_name" name]
                 | none => []) ++
                (match o.spent_status with
                 | some .spent => [QueryItem.keyOnly "spent"]
                 | some .unspent => [QueryItem.keyOnly "unspent"]
                 | none => []) })
    ∧ (∀ a, o.address = some a → o.credential = none →
        ∃ u, o.to_url e = .ok u ∧ u.path = "matches/" ++ a)
    ∧ (∀ c, o.address = none → o.credential = some c →
        ∃ u, o.to_url e = .ok u ∧ u.path = "matches/" ++ c)
    ∧ (∀ t, o.address = none → o.credential = none → o.transaction = some t →
        ∃ u, o.to_url e = .ok u ∧ u.path = "matches/" ++ t.to_pattern)
    ∧ (∀ a, o.address = none → o.credential = none → o.transaction = none →
        o.asset = some a →
        ∃ u, o.to_url e = .ok u ∧ u.path = "matches/" ++ a.to_pattern)
    ∧ (o.address = none → o.credential = none → o.transaction = none →
        o.asset = none →
        ∃ u, o.to_url e = .ok u ∧ u.path = "matches") := by
  obtain ⟨ss, ad, cr, as0, tr⟩ := o
  refine ⟨?_, ?_, ?_, ?_, ?_, ?_⟩
  · rintro ⟨p, an⟩ ⟨tid, ti⟩ rfl rfl rfl rfl
    cases an <;> rcases ss with _ | (_ | _) <;>
      simp [MatchOptions.to_url, TransactionIdOptions.to_pattern]
  · rintro a rfl rfl
    cases as0 <;> cases tr <;> exact ⟨_, rfl, rfl⟩
  · rintro c rfl rfl
    cases as0 <;> cases tr <;> exact ⟨_, rfl, rfl⟩
  · rintro t rfl rfl rfl
    cases as0 <;> exact ⟨_, rfl, rfl⟩
  · rintro a rfl rfl rfl rfl
    exact ⟨_, rfl, rfl⟩
  · rintro rfl rfl rfl rfl
    exact ⟨_, rfl, rfl⟩

/-- C1 witness: the amended priority rule evaluated on the concrete filter of
the counterexample instance. -/
theorem to_url_pattern_priority_witness :
    c1Options.to_url exEndpoint
      = .ok { base := "http://localhost:1442", path := "matches/*@tt",
              query := [QueryItem.pair "policy_id" "abcd",
                        QueryItem.pair "asset_name" "ef01"] } :=
  (to_url_pattern_priority exEndpoint c1Options).1
    { policy_id := "abcd", asset_name := some "ef01" }
    { transaction_id := "tt", output_index := none } rfl rfl rfl rfl

/-- C2: a filter with both address and credential set compiles to the
`InvalidQuery` error regardless of all other fields, and `Client::matches` on
such a filter returns that error with zero back-off sleeps, for every retry
budget and every server behavior. -/
theorem to_url_address_credential_conflict (e : Url) (o : MatchOptions)
    (ha : o.address.isSome = true) (hc : o.credential.isSome = true) :
    o.to_url e = .error (.invalidQuery "cannot query by both address and credential at once")
      ∧ ∀ (r : Nat) (script : List MatchesReply),
          Client.matches { endpoint := e, retries := r } o script
            = (.error (.invalidQuery "cannot query by both address and credential at once"), 0) := by
  have hurl : o.to_url e
      = .error (.invalidQuery "cannot query by both address and credential at once") := by
    simp [MatchOptions.to_url, ha, hc]
  refine ⟨hurl, ?_⟩
  intro r script
  cases script <;> simp [Client.matches, Client.matchesGo, hurl]

/-- C2 witness: the conflict on a concrete filter carrying both an address
and a credential. -/
theorem to_url_address_credential_conflict_witness :
    MatchOptions.to_url
        { spent_status := none, address := some "addr", credential := some "cred",
          asset := none, transaction := none } exEndpoint
      = .error (.invalidQuery "cannot query by both address and credential at once")
      ∧ ∀ (r : Nat) (script : List MatchesReply),
          Client.matches { endpoint := exEndpoint, retries := r }
              { spent_status := none, address := some "addr", credential := some "cred",
                asset := none, transaction := none } script
            = (.error (.invalidQuery "cannot query by both address and credential at once"), 0) :=
  to_url_address_credential_conflict exEndpoint
    { spent_status := none, address := some "addr", credential := some "cred",
      asset := none, transaction := none } rfl rfl

/-- C7: the spec's worked examples. `{unspent, address}` compiles to path
`matches/addr1w9q...` with the single valueless query flag `unspent`; the
asset filter `{policy abcd, name ef01}` alone compiles to `matches/abcd.ef01`
with an empty query; the same asset filter with address `X` compiles to
`matches/X` with query pairs `policy_id=abcd` and `asset_name=ef01`. -/
theorem to_url_spec_examples :
    MatchOptions.to_url
        { spent_status := some .unspent, address := some "addr1w9q...",
          credential := none, asset := none, transaction := none } exEndpoint
      = .ok { base := "http://localhost:1442", path := "matches/addr1w9q...",
              query := [QueryItem.keyOnly "unspent"] }
    ∧ MatchOptions.to_url
        { spent_status := none, address := none, credential := none,
          asset := some { policy_id := "abcd", asset_name := some "ef01" },
          transaction := none } exEndpoint
      = .ok { base := "http://localhost:1442", path := "matches/abcd.ef01", query := [] }
    ∧ MatchOptions.to_url
        { spent_status := none, address := some "X", credential := none,
          asset := some { policy_id := "abcd", asset_name := some "ef01" },
          transaction := none } exEndpoint
      = .ok { base := "http://localhost:1442", path := "matches/X",
              query := [QueryItem.pair "policy_id" "abcd",
                        QueryItem.pair "asset_name" "ef01"] } :=
  ⟨rfl, rfl, rfl⟩

/-- C8: the textual pattern of a transaction filter is
`output_index@transaction_id` when an output index is given and
`*@transaction_id` when it is not. -/
theorem transaction_to_pattern_form (tid : String) (index : Nat) :
    TransactionIdOptions.to_pattern { transaction_id := tid, output_index := some index }
        = toString index ++ "@" ++ tid
      ∧ TransactionIdOptions.to_pattern { transaction_id := tid, output_index := none }
        = "*@" ++ tid :=
  ⟨rfl, rfl⟩

theorem matchesGo_failure_script (e : Url) (o : MatchOptions) (u : Url)
    (hu : o.to_url e = .ok u) :
    ∀ (n r k : Nat) (hint : String) (ms : List Match),
      Client.matchesGo e o r k
          (List.replicate n (.reply 503 (.failure hint)) ++ [.reply 200 (.success ms)])
        = if n ≤ r then (.ok ms, k + n) else (.error (.kupoError hint), k + r) := by
  intro n
  induction n with
  | zero =>
    intro r k hint ms
    simp [Client.matchesGo, hu]
  | succ m ih =>
    intro r k hint ms
    rw [List.replicate_succ, List.cons_append]
    rcases r with _ | r
    · simp [Client.matchesGo, hu]
    · rw [show Client.matchesGo e o (r + 1) k
            (.reply 503 (.failure hint) ::
              (List.replicate m (.reply 503 (.failure hint)) ++ [.reply 200 (.success ms)]))
          = Client.matchesGo e o r (k + 1)
              (List.replicate m (.reply 503 (.failure hint)) ++ [.reply 200 (.success ms)])
          from by simp [Client.matchesGo, hu]]
      rw [ih r (k + 1) hint ms]
      by_cases h : m ≤ r
      · rw [if_pos h, if_pos (Nat.succ_le_succ h)]
        congr 1
        omega
      · rw [if_neg h, if_neg (fun hh => h (Nat.le_of_succ_le_succ hh))]
        congr 1
        omega

/-- C3: against a server that replies HTTP 503 with a failure body `n` times
and then a success body, `Client::matches` with a retry budget of at least
`n` returns the success result (after `n` sleeps), while a budget below `n`
returns the server-reported error carrying the hint after exhausting the
budget; with a budget of zero, a single 503-with-failure reply yields the
server-reported error immediately, with zero back-off sleeps. -/
theorem matches_retry_policy (e : Url) (o : MatchOptions) (u : Url)
    (hu : o.to_url e = .ok u) (n r : Nat) (hint : String) (ms : List Match) :
    (n ≤ r → Client.matches { endpoint := e, retries := r } o
        (List.replicate n (.reply 503 (.failure hint)) ++ [.reply 200 (.success ms)])
        = (.ok ms, n))
    ∧ (r < n → Client.matches { endpoint := e, retries := r } o
        (List.replicate n (.reply 503 (.failure hint)) ++ [.reply 200 (.success ms)])
        = (.error (.kupoError hint), r))
    ∧ Client.matches { endpoint := e, retries := 0 } o [.reply 503 (.failure hint)]
        = (.error (.kupoError hint), 0) := by
  refine ⟨?_, ?_, ?_⟩
  · intro h
    rw [Client.matches, matchesGo_failure_script e o u hu n r 0 hint ms, if_pos h,
      Nat.zero_add]
  · intro h
    rw [Client.matches, matchesGo_failure_script e o u hu n r 0 hint ms,
      if_neg (Nat.not_le_of_lt h), Nat.zero_add]
  · simp [Client.matches, Client.matchesGo, hu]

/-- C3 witness: one 503-with-failure reply then success, with a retry budget
of two, returns the success result after one sleep. -/
theorem matches_retry_policy_witness :
    Client.matches { endpoint := exEndpoint, retries := 2 } emptyOptions
        (List.replicate 1 (.reply 503 (.failure "h")) ++ [.reply 200 (.success [])])
      = (.ok [], 1) :=
  (matches_retry_policy exEndpoint emptyOptions
    { base := "http://localhost:1442", path := "matches", query := [] }
    rfl 1 2 "h" []).1 (by decide)

/-- C4: `health` always returns a `Health` value: a transport failure folds
into the error's display string, a response's status is derived from the
code as 200, 202, 503, other maps to healthy, syncing, disconnected and
unexpected-code error respectively, and a failure body's hint overrides the
status-derived message. -/
theorem health_classification :
    (∀ code info, Client.health (.response code (.success info))
        = { status := HealthStatus.fromCode code, info := some info })
      ∧ (∀ code, Client.health (.response code .malformed)
          = { status := HealthStatus.fromCode code, info := none })
      ∧ (∀ code hint, Client.health (.response code (.failure hint))
          = { status := .error hint, info := none })
      ∧ Client.health .noResponse = { status := .error "request failed", info := none }
      ∧ HealthStatus.fromCode 200 = .healthy
      ∧ HealthStatus.fromCode 202 = .syncing
      ∧ HealthStatus.fromCode 503 = .disconnected
      ∧ (∀ code, code ≠ 200 → code ≠ 202 → code ≠ 503 →
          HealthStatus.fromCode code
            = .error ("Unexpected response code " ++ toString code)) := by
  refine ⟨fun _ _ => rfl, fun _ => rfl, fun _ _ => rfl, rfl, rfl, rfl, rfl, ?_⟩
  intro code h1 h2 h3
  simp [HealthStatus.fromCode, h1, h2, h3]

/-- C4 witness: an unexpected status code maps to the error status. -/
theorem health_classification_witness :
    HealthStatus.fromCode 501 = .error ("Unexpected response code " ++ toString 501) :=
  health_classification.2.2.2.2.2.2.2 501 (by decide) (by decide) (by decide)

/-- C9: a failure body overrides the whole status, not just the message: any
response whose body decodes as `{hint}` yields `Error(hint)` with no info,
even under HTTP 200 or 202, and that status is not `Healthy`. -/
theorem health_failure_body_overrides (hint : String) :
    Client.health (.response 200 (.failure hint)) = { status := .error hint, info := none }
      ∧ Client.health (.response 202 (.failure hint)) = { status := .error hint, info := none }
      ∧ (∀ code, Client.health (.response code (.failure hint))
          = { status := .error hint, info := none })
      ∧ HealthStatus.error hint ≠ .healthy :=
  ⟨rfl, rfl, fun _ => rfl, by simp⟩

/-- C6 counterexample: an HTTP-level absent body is a deserialization
failure, so `Client::datum` surfaces it as `RequestFailed` — not, as claimed,
as `None`. -/
theorem datum_missing_body_counterexample :
    Client.datum (.response none) = .error .requestFailed
      ∧ Client.datum (.response none) ≠ .ok none :=
  ⟨rfl, by simp [Client.datum, parseOptionDatumResponse]⟩

/-- C6 (amended): a JSON `null` body yields `None`; a missing body is a
deserialization failure surfacing as `RequestFailed` (as is a transport
failure); a success body `{datum}` yields the datum; a failure body `{hint}`
yields the server-reported error carrying the hint. -/
theorem datum_classification :
    (∀ d, Client.datum (.response (some (.obj [("datum", .str d)]))) = .ok (some d))
      ∧ (∀ h, Client.datum (.response (some (.obj [("hint", .str h)])))
          = .error (.kupoError h))
      ∧ Client.datum (.response (some .null)) = .ok none
      ∧ Client.datum (.response none) = .error .requestFailed
      ∧ Client.datum .noResponse = .error .requestFailed :=
  ⟨fun _ => rfl, fun _ => rfl, rfl, rfl, rfl⟩

end Kupon
